import Mathlib

/-!
# Verification of PasteMD's clipboard classification and paste-workflow routing

Shallow embedding of the core of the PasteMD repository:

* `pastemd/utils/clipboard.py` — `_extract_html_fragment`, `is_clipboard_empty`,
  `read_file_with_encoding`, `get_markdown_files_from_clipboard` (as an oracle);
* `pastemd/utils/markdown_utils.py` — `merge_markdown_contents`;
* `pastemd/app/workflows/paste_workflow.py` — `PasteWorkflow.execute` and its flows.

External collaborators (the pandoc converter, the per-application inserters, the
table parser, the foreground-app detector, the filesystem and OS clipboard) are
modelled as oracles inside an `Env` record, in line with the specification,
which declares them out of scope with narrow contracts.  Python strings are
modelled at code-point granularity (`String` / `List Char`): Python indexes and
slices strings by code points, exactly as the char-list model does.
-/

namespace PasteMD

/-! ## Python string primitives

Models of the Python string operations used by the source, at the precision
the source needs: `str.strip` strips ASCII whitespace (the source only strips
header lines, keys and values of a CF_HTML container and Markdown file
contents), `str.isdigit` is modelled on ASCII digits (CF_HTML metadata is
ASCII), `int(...)` accepts an optional sign and a nonempty digit run with
surrounding whitespace, and slicing follows Python's clamping rules. -/

/-- Whitespace characters removed by Python `str.strip()` (ASCII subset:
space, tab, newline, carriage return, vertical tab, form feed). -/
def isPyWS (c : Char) : Bool :=
  c.toNat = 32 || c.toNat = 9 || c.toNat = 10 || c.toNat = 13 ||
  c.toNat = 11 || c.toNat = 12

/-- `str.strip()` on a character list: drop leading and trailing whitespace. -/
def pyStripL (l : List Char) : List Char :=
  ((l.dropWhile isPyWS).reverse.dropWhile isPyWS).reverse

/-- `str.strip()` on a `String`. -/
def pyStrip (s : String) : String :=
  ⟨pyStripL s.data⟩

/-- ASCII decimal digit test. -/
def isAsciiDigit (c : Char) : Bool :=
  48 ≤ c.toNat && c.toNat ≤ 57

/-- Python `str.isdigit()` for ASCII strings: nonempty and all digits. -/
def pyIsDigitL (l : List Char) : Bool :=
  !l.isEmpty && l.all isAsciiDigit

/-- Value of an all-digit character list, most significant digit first. -/
def digitsToNat (l : List Char) : Nat :=
  l.foldl (fun a c => a * 10 + (c.toNat - 48)) 0

/-- Python `int(s)`: strip whitespace, optional single sign, nonempty digit
run; `none` models the `ValueError` Python raises otherwise. -/
def pyIntL (l : List Char) : Option Int :=
  match pyStripL l with
  | '+' :: rest => if pyIsDigitL rest then some (digitsToNat rest) else none
  | '-' :: rest => if pyIsDigitL rest then some (-(digitsToNat rest : Int)) else none
  | rest => if pyIsDigitL rest then some (digitsToNat rest) else none

/-- Normalize a Python slice bound against a sequence of length `n`:
negative indices count from the end, and bounds are clamped into `[0, n]`. -/
def pySliceIdx (n : Nat) (i : Int) : Nat :=
  if i < 0 then ((n : Int) + i).toNat else min i.toNat n

/-- Python `l[a:b]` on a character list. -/
def pySliceL (l : List Char) (a b : Int) : List Char :=
  (l.take (pySliceIdx l.length b)).drop (pySliceIdx l.length a)

/-- Python `s[a:b]` on a `String`. -/
def pySliceStr (s : String) (a b : Int) : String :=
  ⟨pySliceL s.data a b⟩

/-- Python `str.splitlines()` restricted to the line boundaries CF_HTML
containers actually use: `\n`, `\r\n` and `\r`.  A trailing terminator does
not contribute an empty final line, and the empty string has no lines. -/
def pySplitLines : List Char → List (List Char)
  | [] => []
  | l => pySplitLinesGo l []
where
  pySplitLinesGo : List Char → List Char → List (List Char)
    | [], acc => [acc.reverse]
    | '\r' :: '\n' :: rest, acc =>
      acc.reverse :: (match rest with | [] => [] | r => pySplitLinesGo r [])
    | c :: rest, acc =>
      if c = '\n' ∨ c = '\r' then
        acc.reverse :: (match rest with | [] => [] | r => pySplitLinesGo r [])
      else
        pySplitLinesGo rest (c :: acc)

/-- Split a list at the first occurrence of `c` (Python `l.split(c, 1)` when
`c in l`); `none` when `c` does not occur. -/
def splitOnceChar (c : Char) : List Char → Option (List Char × List Char)
  | [] => none
  | x :: rest =>
    if x = c then some ([], rest)
    else match splitOnceChar c rest with
      | some (k, v) => some (x :: k, v)
      | none => none

/-- First index at which `needle` occurs in `hay`, if any. -/
def firstIndexOf (needle : List Char) : List Char → Option Nat
  | [] => if needle.isEmpty then some 0 else none
  | c :: rest =>
    if needle.isPrefixOf (c :: rest) then some 0
    else (firstIndexOf needle rest).map (· + 1)

/-- Last index at which `needle` occurs in `hay`, if any. -/
def lastIndexOf (needle : List Char) : List Char → Option Nat
  | [] => if needle.isEmpty then some 0 else none
  | c :: rest =>
    match lastIndexOf needle rest with
    | some j => some (j + 1)
    | none => if needle.isPrefixOf (c :: rest) then some 0 else none

/-! ## Fragment Extractor (`pastemd/utils/clipboard.py`, `_extract_html_fragment`) -/

/-- Header parse of `_extract_html_fragment` (clipboard.py lines 171-177):
walk the lines; stop at the first line whose stripped form starts with
`<!--`; every earlier line containing `:` contributes a stripped
key/value pair (later occurrences of a key overwrite earlier ones, which
`metaGet` models by taking the last binding). -/
def parseMetaLines : List (List Char) → List (List Char × List Char)
  | [] => []
  | line :: rest =>
    if "<!--".data.isPrefixOf (pyStripL line) then []
    else
      match splitOnceChar ':' line with
      | some (k, v) => (pyStripL k, pyStripL v) :: parseMetaLines rest
      | none => parseMetaLines rest

/-- The metadata dictionary of a CF_HTML container. -/
def parseMeta (cf : String) : List (List Char × List Char) :=
  parseMetaLines (pySplitLines cf.data)

/-- Dictionary lookup: the Python `dict` keeps the last assignment. -/
def metaGet (m : List (List Char × List Char)) (k : List Char) : Option (List Char) :=
  ((m.filter (fun p => p.1 == k)).getLast?).map (·.2)

/-- Step 1 of the extractor (clipboard.py lines 179-188): if `StartFragment`
and `EndFragment` are both present, truthy and all-digit, slice the container
by them.  (`int` cannot fail on a digit run and slicing cannot fail, so the
`except: pass` around them is unreachable.) -/
def step1Result (cf : String) : Option String :=
  match metaGet (parseMeta cf) "StartFragment".data,
        metaGet (parseMeta cf) "EndFragment".data with
  | some sf, some ef =>
    if pyIsDigitL sf && pyIsDigitL ef then
      some (pySliceStr cf (digitsToNat sf) (digitsToNat ef))
    else none
  | _, _ => none

/-- Step 2 of the extractor (clipboard.py line 191): the regex
`<!--StartFragment-->(.*)<!--EndFragment-->` with `re.S` under `re.search`:
the match, when it exists, starts at the first occurrence of the start anchor
and — `.*` being greedy — ends at the last occurrence of the end anchor after
it; the group is the text strictly between the two anchors. -/
def anchorExtract (cf : List Char) : Option (List Char) :=
  match firstIndexOf "<!--StartFragment-->".data cf with
  | none => none
  | some i =>
    let rest := cf.drop (i + 20)
    match lastIndexOf "<!--EndFragment-->".data rest with
    | none => none
    | some j => some (rest.take j)

/-- Step 3's `int(meta.get("StartHTML", "0"))` (clipboard.py line 196): the
default `"0"` round-trips through `int` and is modelled directly as `0`;
`none` models the `ValueError` raised by a malformed declared value. -/
def startHtmlInt (cf : String) : Option Int :=
  match metaGet (parseMeta cf) "StartHTML".data with
  | some v => pyIntL v
  | none => some 0

/-- Step 3's `int(meta.get("EndHTML", str(len(cf_html))))` (clipboard.py
line 197): the default `str(len(cf_html))` round-trips through `int` and is
modelled directly as the container length. -/
def endHtmlInt (cf : String) : Option Int :=
  match metaGet (parseMeta cf) "EndHTML".data with
  | some v => pyIntL v
  | none => some (cf.length : Int)

/-- `_extract_html_fragment` (clipboard.py lines 160-201).  `Except` models
exception flow: `.error` is the `ValueError` that `int(...)` raises in step 3
when a declared `StartHTML`/`EndHTML` value is not an integer literal — the
only fallible statement of the function outside a `try`. -/
def extractHtmlFragment (cf : String) : Except String String :=
  match step1Result cf with
  | some r => .ok r
  | none =>
    match anchorExtract cf.data with
    | some mid => .ok ⟨mid⟩
    | none =>
      match startHtmlInt cf, endHtmlInt cf with
      | some a, some b => .ok (pySliceStr cf a b)
      | _, _ => .error "ValueError: invalid literal for int()"

/-- A concrete well-formed CF_HTML container whose declared fragment offsets
35..40 select `hello` inside the payload `<p>hello</p>`. -/
def cfFragW : String := "StartFragment:35\nEndFragment:40\n<p>hello</p>"

/-! ## Markdown merge (`pastemd/utils/markdown_utils.py`, `merge_markdown_contents`)

`PasteWorkflow._merge_md_contents` (paste_workflow.py lines 201-222) is the
same code line for line; one definition models both. -/

/-- The provenance marker line `f"<!-- Source: {filename} -->"` inserted in
front of each entry of a multi-file merge. -/
def sourceMarker (filename : String) : String :=
  "<!-- Source: " ++ filename ++ " -->"

/-- Python `"\n".join(parts)`. -/
def pyJoinNL : List String → String
  | [] => ""
  | [p] => p
  | p :: ps => p ++ "\n" ++ pyJoinNL ps

/-- `merge_markdown_contents` (markdown_utils.py lines 4-29): a single file's
content is returned unchanged; several files become
`marker, content.strip(), ""` blocks joined by newlines. -/
def mergeMarkdownContents (filesData : List (String × String)) : String :=
  if filesData.length = 1 then (filesData.headD ("", "")).2
  else
    pyJoinNL (filesData.flatMap fun fc => [sourceMarker fc.1, pyStrip fc.2, ""])

/-- Split a character list at every `\n` (the inverse view of `pyJoinNL`):
`"a\nb"` has lines `a` and `b`, the empty text has one empty line. -/
def splitNL : List Char → List (List Char)
  | [] => [[]]
  | c :: rest =>
    let r := splitNL rest
    if c = '\n' then [] :: r
    else match r with
      | [] => [[c]]
      | h :: t => (c :: h) :: t

/-- The lines of a string under `\n`-splitting. -/
def pyLines (s : String) : List String :=
  (splitNL s.data).map fun l => ⟨l⟩

/-- A line is a provenance-marker line when it begins with the marker prefix
`<!-- Source: `. -/
def isMarkerLine (s : String) : Bool :=
  "<!-- Source: ".data.isPrefixOf s.data

/-! ## Workflow model (`pastemd/app/workflows/paste_workflow.py`)

Python exception classes that the workflow distinguishes (`core/errors.py`
defines them; only their identity matters to control flow).  `generic` stands
for any other `Exception`. -/

inductive PyErr where
  | clipboard : PyErr
  | pandoc : PyErr
  | insert : PyErr
  | generic : PyErr
deriving DecidableEq

/-- One call to `NotificationManager.notify("PasteMD", t(key, ...), ok=...)`:
the i18n message key, the `ok` flag, and the `count`/filename parameters the
claims depend on (other parameters — application names, file paths — do not
affect control flow and are omitted). -/
structure Notif where
  key : String
  ok : Bool
  count : Option Nat := none
  text : Option String := none
deriving DecidableEq

abbrev Notifs := List Notif

/-- Computation monad for the workflow: a state of already-delivered
notifications (the sink's contract says `notify` never raises, so emission is
a pure append) plus Python exception propagation.  Notifications emitted
before an exception stay delivered. -/
def M (α : Type) : Type := Notifs → Notifs × Except PyErr α

instance : Monad M where
  pure a := fun ns => (ns, Except.ok a)
  bind x f := fun ns =>
    match x ns with
    | (ns1, Except.ok a) => f a ns1
    | (ns1, Except.error e) => (ns1, Except.error e)

/-- `notification_manager.notify(...)`. -/
def emit (n : Notif) : M Unit := fun ns => (ns ++ [n], Except.ok ())

/-- `raise e`. -/
def raiseErr {α : Type} (e : PyErr) : M α := fun ns => (ns, Except.error e)

/-- Run a collaborator call that either returns or raises. -/
def liftE {α : Type} (x : Except PyErr α) : M α := fun ns => (ns, x)

/-- Run a collaborator call whose only failure mode is `ClipboardError`
(`get_clipboard_text`, `get_clipboard_html` and `read_file_with_encoding`
wrap every internal failure in `ClipboardError`). -/
def liftClip {α : Type} (x : Option α) : M α := fun ns =>
  (ns, match x with | some a => Except.ok a | none => Except.error PyErr.clipboard)

/-- Python `try: body except ...: handler e` — the handler receives the
exception; an unmatched exception class is modelled by the handler
re-raising. -/
def tryCatchM {α : Type} (body : M α) (handler : PyErr → M α) : M α := fun ns =>
  match body ns with
  | (ns1, Except.error e) => handler e ns1
  | (ns1, Except.ok a) => (ns1, Except.ok a)

/-- Result of `detect_active_app`: the resolved target application
(`noneT` covers "no supported application focused"). -/
inductive Target where
  | word : Target
  | wps : Target
  | excel : Target
  | wpsExcel : Target
  | noneT : Target
deriving DecidableEq

/-- `target in ("word", "wps")`. -/
def isWordTarget (t : Target) : Bool := t = Target.word || t = Target.wps

/-- `target in ("excel", "wps_excel")`. -/
def isExcelTarget (t : Target) : Bool := t = Target.excel || t = Target.wpsExcel

/-- Produced DOCX byte streams, abstract. -/
abbrev Bytes := List Nat

/-- Collaborator and platform oracles for one `execute` invocation.  Fields
whose type is `Option _` are calls whose only failure mode is
`ClipboardError` (`none` = raise); fields of type `Except PyErr _` may raise
arbitrary exceptions.  `textRead1` is the `get_clipboard_text()` call inside
`is_clipboard_empty`, `textRead2` the later one in `execute` (the clipboard
may change between the two). -/
structure Env where
  textRead1 : Option String
  textRead2 : Option String
  isHtmlAvail : Bool
  clipboardHtml : Option String
  plainFragment : String → Bool
  detect : Except PyErr Target
  mdFiles : List (String × (String → Option String))
  mdNormalize : String → String
  latexConv : String → String
  pandocOk : Bool
  pandocMd : String → Except PyErr Bytes
  pandocHtml : String → Except PyErr Bytes
  docxProcess : Bytes → Bytes
  parseTable : String → Option (List (List String))
  wordInsert : Except PyErr Bool
  wpsInsert : Except PyErr Bool
  msExcelInsert : List (List String) → Except PyErr Bool
  wpsExcelInsert : List (List String) → Except PyErr Bool
  genOutputPath : Except PyErr String
  writeFile : String → Except PyErr Unit
  launchOpen : Except PyErr Bool
  genOpenSpreadsheet : Except PyErr Bool
  genSpreadsheet : Except PyErr Bool
  copyFiles : Except PyErr Unit
  saveFileWord : Except PyErr Unit
  saveFileHtml : Except PyErr Unit

/-- Configuration snapshot read by the workflow (defaults as in the source's
`config.get` calls: `enable_excel=True`, `no_app_action="open"`,
`keep_file=False`, indent suppression on). -/
structure Config where
  enableExcel : Bool := true
  noAppAction : String := "open"
  keepFile : Bool := false
  mdDisableIndent : Bool := true
  htmlDisableIndent : Bool := true

/-! ### Leaf operations -/

/-- `is_clipboard_empty` (clipboard.py lines 36-47): a failed read counts as
empty; otherwise empty means blank text. -/
def isClipboardEmpty (env : Env) : Bool :=
  match env.textRead1 with
  | none => true
  | some t => t = "" || pyStrip t = ""

/-- The HTML-probing prologue of `execute` (paste_workflow.py lines 60-76):
compute `should_use_html` and the pre-read `html_text`.  `get_clipboard_html`
only raises `ClipboardError`, which the source catches by clearing the HTML
path, so the computation is total. -/
def classifyHtml (env : Env) : Bool × Option String :=
  if env.isHtmlAvail then
    match env.clipboardHtml with
    | some ht => (!env.plainFragment ht, some ht)
    | none => (false, none)
  else (false, none)

/-- The routing table of `execute` (paste_workflow.py lines 83-103): content
shape × resolved target → flow, in the source's precedence order. -/
inductive Flow where
  | htmlToWord : Flow
  | excelTable : Flow
  | wordDoc : Flow
  | noApp : Bool → Flow
deriving DecidableEq

/-- The text-path dispatch of `execute` (paste_workflow.py lines 83-103):
`should_use_html` with a Word-like target takes the HTML flow; otherwise an
Excel-like target with `enable_excel` takes the spreadsheet table-insert
flow; otherwise a Word-like target takes the Markdown flow; otherwise the
no-target policy flow (whose HTML variant is chosen by `should_use_html`). -/
def routeOfText (shouldUseHtml : Bool) (target : Target) (enableExcel : Bool) : Flow :=
  if shouldUseHtml && isWordTarget target then Flow.htmlToWord
  else if isExcelTarget target && enableExcel then Flow.excelTable
  else if isWordTarget target then Flow.wordDoc
  else Flow.noApp shouldUseHtml

/-- The ordered decoding attempts of `read_file_with_encoding`
(clipboard.py line 444). -/
def encodingOrder : List String := ["utf-8", "gbk", "gb2312", "utf-8-sig"]

/-- The attempt loop of `read_file_with_encoding` (clipboard.py lines
446-457): first successful decode wins; any per-encoding failure (decode or
I/O) falls through to the next encoding. -/
def tryEncodings (dec : String → Option String) : List String → Option String
  | [] => none
  | e :: rest =>
    match dec e with
    | some c => some c
    | none => tryEncodings dec rest

/-- `read_file_with_encoding` (clipboard.py lines 429-462) over a file
abstracted as its per-encoding decode oracle; `none` models the final
`ClipboardError`. -/
def readFileWithEncoding (dec : String → Option String) : Option String :=
  tryEncodings dec encodingOrder

/-- `_ensure_pandoc_integration` (paste_workflow.py lines 502-522):
`pandocOk` abstracts "some initialization attempt succeeded"; when both
attempts fail the method notifies and leaves the integration unset. -/
def ensurePandoc (env : Env) : M Unit :=
  if env.pandocOk then pure ()
  else emit ⟨"workflow.pandoc.init_failed", false, none, none⟩

/-- `_perform_word_insertion` (paste_workflow.py lines 524-549): an
`InsertError` becomes `False`; any other exception propagates. -/
def performWordInsertion (env : Env) (target : Target) : M Bool :=
  match target with
  | Target.word =>
    tryCatchM (liftE env.wordInsert) fun e =>
      match e with
      | PyErr.insert => pure false
      | e => raiseErr e
  | Target.wps =>
    tryCatchM (liftE env.wpsInsert) fun e =>
      match e with
      | PyErr.insert => pure false
      | e => raiseErr e
  | _ => pure false

/-- `_show_word_result` (paste_workflow.py lines 551-576). -/
def showWordResult (_target : Target) (inserted fromMdFile : Bool) (fileCount : Nat) : M Unit :=
  if inserted then
    if fromMdFile then
      if fileCount > 1 then
        emit ⟨"workflow.md_file.insert_success_multi", true, some fileCount, none⟩
      else
        emit ⟨"workflow.md_file.insert_success", true, none, none⟩
    else
      emit ⟨"workflow.word.insert_success", true, none, none⟩
  else
    emit ⟨"workflow.insert_failed_no_app", false, none, none⟩

/-! ### Reading Markdown files from the clipboard -/

/-- The per-file loop of `_try_read_clipboard_md_files` (paste_workflow.py
lines 184-197): a file whose read raises is reported individually (with its
filename) and skipped; the rest of the batch is still processed, in order. -/
def readFilesLoop : List (String × (String → Option String)) → M (List (String × String))
  | [] => pure []
  | (fn, dec) :: rest =>
    match readFileWithEncoding dec with
    | some c => do
      let r ← readFilesLoop rest
      pure ((fn, c) :: r)
    | none => do
      emit ⟨"workflow.md_file.read_failed", false, none, some fn⟩
      readFilesLoop rest

/-- `_try_read_clipboard_md_files` (paste_workflow.py lines 160-199). -/
def tryReadClipboardMdFiles (env : Env) : M (Bool × List (String × String)) :=
  if env.mdFiles.isEmpty then pure (false, [])
  else do
    if env.mdFiles.length > 1 then
      emit ⟨"workflow.md_file.multiple_found", true, some env.mdFiles.length, none⟩
    let fd ← readFilesLoop env.mdFiles
    pure (fd.length > 0, fd)

/-! ### Document generation helpers (no-target policy executor) -/

/-- `_generate_docx_from_markdown` (paste_workflow.py lines 578-625).  When
pandoc initialization failed (after its own notification) the source calls a
method on `None`, raising `AttributeError` — a generic exception. -/
def generateDocxFromMarkdown (env : Env) (cfg : Config) (md : String) : M (Bytes × String) := do
  let md1 := env.latexConv (env.mdNormalize md)
  let path ← liftE env.genOutputPath
  ensurePandoc env
  if env.pandocOk then do
    let bts ← liftE (env.pandocMd md1)
    let bts := if cfg.mdDisableIndent then env.docxProcess bts else bts
    pure (bts, path)
  else raiseErr PyErr.generic

/-- `_generate_docx_from_html` (paste_workflow.py lines 627-678). -/
def generateDocxFromHtml (env : Env) (cfg : Config) (htmlText : Option String) :
    M (Bytes × String) := do
  let ht ← match htmlText with
    | some h => pure h
    | none => liftClip env.clipboardHtml
  ensurePandoc env
  if env.pandocOk then do
    let bts ← liftE (env.pandocHtml ht)
    let bts := if cfg.htmlDisableIndent then env.docxProcess bts else bts
    let path ← liftE env.genOutputPath
    pure (bts, path)
  else raiseErr PyErr.generic

/-- `_generate_and_open_document` (paste_workflow.py lines 812-854). -/
def generateAndOpenDocument (env : Env) (cfg : Config) (md : String) (fromMdFile : Bool) :
    M Unit :=
  tryCatchM
    (do
      let (_bts, path) ← generateDocxFromMarkdown env cfg md
      liftE (env.writeFile path)
      let opened ← liftE env.launchOpen
      if opened then
        emit ⟨(if fromMdFile then "workflow.md_file.generated_and_opened"
               else "workflow.document.generated_and_opened"), true, none, none⟩
      else
        emit ⟨"workflow.document.open_failed", false, none, none⟩)
    fun e =>
      match e with
      | PyErr.pandoc => emit ⟨"workflow.markdown.convert_failed", false, none, none⟩
      | _ => emit ⟨"workflow.document.generate_failed", false, none, none⟩

/-- `_generate_and_save_document` (paste_workflow.py lines 955-990). -/
def generateAndSaveDocument (env : Env) (cfg : Config) (md : String) (fromMdFile : Bool) :
    M Unit :=
  tryCatchM
    (do
      let (_bts, path) ← generateDocxFromMarkdown env cfg md
      liftE (env.writeFile path)
      emit ⟨(if fromMdFile then "workflow.md_file.saved" else "workflow.action.saved"),
            true, none, none⟩)
    fun e =>
      match e with
      | PyErr.pandoc => emit ⟨"workflow.markdown.convert_failed", false, none, none⟩
      | _ => emit ⟨"workflow.document.save_failed", false, none, none⟩

/-- `_generate_and_clipboard_document` (paste_workflow.py lines 1084-1120). -/
def generateAndClipboardDocument (env : Env) (cfg : Config) (md : String) (fromMdFile : Bool) :
    M Unit :=
  tryCatchM
    (do
      let (_bts, path) ← generateDocxFromMarkdown env cfg md
      liftE (env.writeFile path)
      liftE env.copyFiles
      emit ⟨(if fromMdFile then "workflow.md_file.clipboard_copied"
             else "workflow.action.clipboard_copied"), true, none, none⟩)
    fun _ => emit ⟨"workflow.action.clipboard_failed", false, none, none⟩

/-- `_generate_and_open_html_document` (paste_workflow.py lines 856-901). -/
def generateAndOpenHtmlDocument (env : Env) (cfg : Config) (htmlText : Option String) :
    M Unit :=
  tryCatchM
    (do
      let (_bts, path) ← generateDocxFromHtml env cfg htmlText
      liftE (env.writeFile path)
      let opened ← liftE env.launchOpen
      if opened then emit ⟨"workflow.html.generated_and_opened", true, none, none⟩
      else emit ⟨"workflow.document.open_failed", false, none, none⟩)
    fun e =>
      match e with
      | PyErr.clipboard => emit ⟨"workflow.html.clipboard_failed", false, none, none⟩
      | PyErr.pandoc => emit ⟨"workflow.html.convert_failed_format", false, none, none⟩
      | _ => emit ⟨"workflow.html.generate_failed", false, none, none⟩

/-- `_generate_and_save_html_document` (paste_workflow.py lines 992-1030). -/
def generateAndSaveHtmlDocument (env : Env) (cfg : Config) (htmlText : Option String) :
    M Unit :=
  tryCatchM
    (do
      let (_bts, path) ← generateDocxFromHtml env cfg htmlText
      liftE (env.writeFile path)
      emit ⟨"workflow.action.saved", true, none, none⟩)
    fun e =>
      match e with
      | PyErr.clipboard => emit ⟨"workflow.html.clipboard_failed", false, none, none⟩
      | PyErr.pandoc => emit ⟨"workflow.html.convert_failed_format", false, none, none⟩
      | _ => emit ⟨"workflow.document.save_failed", false, none, none⟩

/-- `_generate_and_clipboard_html_document` (paste_workflow.py lines
1122-1152). -/
def generateAndClipboardHtmlDocument (env : Env) (cfg : Config) (htmlText : Option String) :
    M Unit :=
  tryCatchM
    (do
      let (_bts, path) ← generateDocxFromHtml env cfg htmlText
      liftE (env.writeFile path)
      liftE env.copyFiles
      emit ⟨"workflow.action.clipboard_copied", true, none, none⟩)
    fun _ => emit ⟨"workflow.action.clipboard_failed", false, none, none⟩

/-- `_generate_and_open_spreadsheet` (paste_workflow.py lines 903-953). -/
def generateAndOpenSpreadsheet (env : Env) (md : String) : M Unit :=
  tryCatchM
    (do
      match env.parseTable md with
      | none => emit ⟨"workflow.table.invalid_simple", false, none, none⟩
      | some t => do
        let _path ← liftE env.genOutputPath
        let ok ← liftE env.genOpenSpreadsheet
        if ok then emit ⟨"workflow.table.export_success", true, some t.length, none⟩
        else emit ⟨"workflow.table.export_open_failed", false, none, none⟩)
    fun _ => emit ⟨"workflow.table.export_failed", false, none, none⟩

/-- `_generate_and_save_spreadsheet` (paste_workflow.py lines 1032-1082). -/
def generateAndSaveSpreadsheet (env : Env) (md : String) : M Unit :=
  tryCatchM
    (do
      match env.parseTable md with
      | none => emit ⟨"workflow.table.invalid_simple", false, none, none⟩
      | some _ => do
        let _path ← liftE env.genOutputPath
        let ok ← liftE env.genSpreadsheet
        if ok then emit ⟨"workflow.action.saved", true, none, none⟩
        else emit ⟨"workflow.table.export_failed", false, none, none⟩)
    fun _ => emit ⟨"workflow.table.export_failed", false, none, none⟩

/-- `_generate_and_clipboard_spreadsheet` (paste_workflow.py lines
1154-1210). -/
def generateAndClipboardSpreadsheet (env : Env) (md : String) : M Unit :=
  tryCatchM
    (do
      match env.parseTable md with
      | none => emit ⟨"workflow.table.invalid_simple", false, none, none⟩
      | some _ => do
        let _path ← liftE env.genOutputPath
        let ok ← liftE env.genSpreadsheet
        if ok then do
          liftE env.copyFiles
          emit ⟨"workflow.action.clipboard_copied", true, none, none⟩
        else emit ⟨"workflow.table.export_failed", false, none, none⟩)
    fun _ => emit ⟨"workflow.action.clipboard_failed", false, none, none⟩

/-! ### Flows -/

/-- `_handle_excel_flow` (paste_workflow.py lines 274-321): parse the
Markdown table; on failure one "invalid table" outcome; otherwise insert,
where `InsertError` becomes a failure outcome and a `False` return exits
without any outcome. -/
def handleExcelFlow (env : Env) (md : String) (target : Target) : M Unit := do
  match env.parseTable md with
  | none => emit ⟨"workflow.table.invalid_with_app", false, none, none⟩
  | some t =>
    tryCatchM
      (do
        let ok ← liftE
          ((if target = Target.wpsExcel then env.wpsExcelInsert else env.msExcelInsert) t)
        if ok then emit ⟨"workflow.table.insert_success", true, some t.length, none⟩
        else pure ())
      fun e =>
        match e with
        | PyErr.insert => emit ⟨"workflow.table.insert_failed", false, none, none⟩
        | e => raiseErr e

/-- `_handle_word_flow` (paste_workflow.py lines 423-500): normalize,
convert, insert; when `keep_file` is set, a failed save is caught and
reported as a "save failed" outcome; the insertion result notification
follows regardless. -/
def handleWordFlow (env : Env) (cfg : Config) (md : String) (target : Target)
    (fromMdFile : Bool) (fileCount : Nat) : M Unit := do
  let md1 := env.latexConv (env.mdNormalize md)
  let lineCount := md1.data.count '\n' + 1
  if lineCount ≥ 100 then
    emit ⟨"workflow.markdown.conversion_started", true, some lineCount, none⟩
  ensurePandoc env
  if env.pandocOk then do
    let bts ← liftE (env.pandocMd md1)
    let _bts := if cfg.mdDisableIndent then env.docxProcess bts else bts
    let inserted ← performWordInsertion env target
    if cfg.keepFile then
      tryCatchM (liftE env.saveFileWord)
        (fun _ => emit ⟨"workflow.document.save_failed", false, none, none⟩)
    showWordResult target inserted fromMdFile fileCount
  else pure ()

/-- `_handle_html_to_word_flow` (paste_workflow.py lines 323-421): like the
word flow but from HTML; a failed `keep_file` save is only logged (lines
379-380) — no notification — before the insertion result notification. -/
def handleHtmlToWordFlow (env : Env) (cfg : Config) (target : Target)
    (htmlText : Option String) : M Unit :=
  tryCatchM
    (do
      let ht ← match htmlText with
        | some h => pure h
        | none => liftClip env.clipboardHtml
      ensurePandoc env
      if env.pandocOk then do
        let bts ← liftE (env.pandocHtml ht)
        let _bts := if cfg.htmlDisableIndent then env.docxProcess bts else bts
        let inserted ← performWordInsertion env target
        if cfg.keepFile then
          tryCatchM (liftE env.saveFileHtml) (fun _ => pure ())
        if inserted then emit ⟨"workflow.html.insert_success", true, none, none⟩
        else emit ⟨"workflow.insert_failed_no_app", false, none, none⟩
      else pure ())
    fun e =>
      match e with
      | PyErr.clipboard => emit ⟨"workflow.html.clipboard_failed", false, none, none⟩
      | PyErr.pandoc => emit ⟨"workflow.html.convert_failed_format", false, none, none⟩
      | _ => emit ⟨"workflow.html.convert_failed_generic", false, none, none⟩

/-- `_handle_no_app_open_action` (paste_workflow.py lines 719-742). -/
def handleNoAppOpenAction (env : Env) (cfg : Config) (md : String) (isHtml : Bool)
    (htmlText : Option String) : M Unit :=
  if isHtml then generateAndOpenHtmlDocument env cfg htmlText
  else if (env.parseTable md).isSome && cfg.enableExcel then
    generateAndOpenSpreadsheet env md
  else generateAndOpenDocument env cfg md false

/-- `_handle_no_app_save_action` (paste_workflow.py lines 744-776). -/
def handleNoAppSaveAction (env : Env) (cfg : Config) (md : String) (isHtml : Bool)
    (htmlText : Option String) : M Unit :=
  tryCatchM
    (if isHtml then generateAndSaveHtmlDocument env cfg htmlText
     else if (env.parseTable md).isSome && cfg.enableExcel then
       generateAndSaveSpreadsheet env md
     else generateAndSaveDocument env cfg md false)
    fun _ => emit ⟨"workflow.document.save_failed", false, none, none⟩

/-- `_handle_no_app_clipboard_action` (paste_workflow.py lines 778-810). -/
def handleNoAppClipboardAction (env : Env) (cfg : Config) (md : String) (isHtml : Bool)
    (htmlText : Option String) : M Unit :=
  tryCatchM
    (if isHtml then generateAndClipboardHtmlDocument env cfg htmlText
     else if (env.parseTable md).isSome && cfg.enableExcel then
       generateAndClipboardSpreadsheet env md
     else generateAndClipboardDocument env cfg md false)
    fun _ => emit ⟨"workflow.action.clipboard_failed", false, none, none⟩

/-- `_handle_no_app_flow` (paste_workflow.py lines 680-717): dispatch on the
configured `no_app_action`; `none` and unknown values report "no application
detected". -/
def handleNoAppFlow (env : Env) (cfg : Config) (md : String) (isHtml : Bool)
    (htmlText : Option String) : M Unit :=
  if cfg.noAppAction = "none" then
    emit ⟨"workflow.no_app_detected", false, none, none⟩
  else if cfg.noAppAction = "open" then
    handleNoAppOpenAction env cfg md isHtml htmlText
  else if cfg.noAppAction = "save" then
    handleNoAppSaveAction env cfg md isHtml htmlText
  else if cfg.noAppAction = "clipboard" then
    handleNoAppClipboardAction env cfg md isHtml htmlText
  else
    emit ⟨"workflow.no_app_detected", false, none, none⟩

/-- `_handle_md_files_no_app_flow` (paste_workflow.py lines 224-272): process
each file independently under the configured action.  `success_count` is
incremented whenever the per-file call returns without raising — and the
generate helpers catch their own failures internally — then the batch
notification fires when `success_count > 0` and more than one file was
processed. -/
def handleMdFilesNoAppFlow (env : Env) (cfg : Config)
    (filesData : List (String × String)) : M Unit := do
  if cfg.noAppAction = "none" then
    emit ⟨"workflow.no_app_detected", false, none, none⟩
  else do
    let successCount ← filesData.foldlM
      (fun (cnt : Nat) fc =>
        tryCatchM
          (if cfg.noAppAction = "open" then do
            generateAndOpenDocument env cfg fc.2 true
            pure (cnt + 1)
          else if cfg.noAppAction = "save" then do
            generateAndSaveDocument env cfg fc.2 true
            pure (cnt + 1)
          else if cfg.noAppAction = "clipboard" then do
            generateAndClipboardDocument env cfg fc.2 true
            pure (cnt + 1)
          else pure cnt)
          fun _ => pure cnt)
      0
    if successCount > 0 && filesData.length > 1 then
      emit ⟨"workflow.md_file.batch_success", true, some successCount, none⟩

/-! ### The router -/

/-- The body of `PasteWorkflow.execute` (paste_workflow.py lines 53-132),
before the boundary exception handlers. -/
def executeBody (env : Env) (cfg : Config) : M Unit := do
  if !isClipboardEmpty env then do
    let (shouldUseHtml, htmlText) := classifyHtml env
    let target ← liftE env.detect
    if shouldUseHtml && isWordTarget target then
      handleHtmlToWordFlow env cfg target htmlText
    else do
      let mdText ← liftClip env.textRead2
      if isExcelTarget target && cfg.enableExcel then
        handleExcelFlow env mdText target
      else if isWordTarget target then
        handleWordFlow env cfg mdText target false 1
      else
        handleNoAppFlow env cfg mdText shouldUseHtml
          (if shouldUseHtml then htmlText else none)
  else do
    let (found, filesData) ← tryReadClipboardMdFiles env
    if !found then
      emit ⟨"workflow.clipboard.empty", false, none, none⟩
    else do
      let target ← liftE env.detect
      if isWordTarget target then
        handleWordFlow env cfg (mergeMarkdownContents filesData) target true filesData.length
      else if isExcelTarget target && cfg.enableExcel then
        handleExcelFlow env (filesData.headD ("", "")).2 target
      else
        handleMdFilesNoAppFlow env cfg filesData

/-- The failure outcome emitted by the boundary handlers of `execute`
(paste_workflow.py lines 134-158) for each exception class. -/
def failNotifFor : PyErr → Notif
  | PyErr.clipboard => ⟨"workflow.clipboard.read_failed", false, none, none⟩
  | PyErr.pandoc => ⟨"workflow.markdown.convert_failed", false, none, none⟩
  | _ => ⟨"workflow.generic.failure", false, none, none⟩

/-- `PasteWorkflow.execute` (paste_workflow.py lines 51-158): the body inside
`try`, with `except ClipboardError` / `except PandocError` /
`except Exception` handlers that each deliver one failure notification. -/
def execute (env : Env) (cfg : Config) : Notifs × Except PyErr Unit :=
  tryCatchM (executeBody env cfg) (fun e => emit (failNotifFor e)) []

/-! ### Concrete invocation environments used as test inputs -/

/-- A benign environment: non-blank plain clipboard text, no rich text, no
files, every collaborator succeeding. -/
def baseEnv : Env where
  textRead1 := some "hello"
  textRead2 := some "hello"
  isHtmlAvail := false
  clipboardHtml := none
  plainFragment := fun _ => true
  detect := Except.ok Target.noneT
  mdFiles := []
  mdNormalize := id
  latexConv := id
  pandocOk := true
  pandocMd := fun _ => Except.ok [0]
  pandocHtml := fun _ => Except.ok [0]
  docxProcess := id
  parseTable := fun _ => none
  wordInsert := Except.ok true
  wpsInsert := Except.ok true
  msExcelInsert := fun _ => Except.ok true
  wpsExcelInsert := fun _ => Except.ok true
  genOutputPath := Except.ok "out.docx"
  writeFile := fun _ => Except.ok ()
  launchOpen := Except.ok true
  genOpenSpreadsheet := Except.ok true
  genSpreadsheet := Except.ok true
  copyFiles := Except.ok ()
  saveFileWord := Except.ok ()
  saveFileHtml := Except.ok ()

/-- Rich-text clipboard that is not a Markdown lookalike, Excel focused,
non-tabular text. -/
def envRichExcel : Env :=
  { baseEnv with
    isHtmlAvail := true
    clipboardHtml := some "<div><p>rich</p></div>"
    plainFragment := fun _ => false
    detect := Except.ok Target.excel }

/-- Clipboard whose text read always fails, with no files on the clipboard. -/
def envReadFail : Env :=
  { baseEnv with textRead1 := none, textRead2 := none }

/-- Word focused with rich text, successful insertion, failing persistence
in the HTML flow. -/
def envHtmlSaveFail : Env :=
  { baseEnv with
    isHtmlAvail := true
    clipboardHtml := some "<div><p>rich</p></div>"
    plainFragment := fun _ => false
    detect := Except.ok Target.word
    saveFileHtml := Except.error PyErr.generic }

/-- Environment whose document converter fails on every input. -/
def envPandocFail : Env :=
  { baseEnv with pandocMd := fun _ => Except.error PyErr.pandoc }

/-- Environment where both persistence oracles fail but everything else
succeeds. -/
def envSaveBothFail : Env :=
  { baseEnv with
    saveFileWord := Except.error PyErr.generic
    saveFileHtml := Except.error PyErr.generic }

/-- Environment whose first clipboard text read succeeds with non-blank text
but whose second read fails (the clipboard changed hands in between). -/
def envSecondReadFail : Env :=
  { baseEnv with textRead2 := none }

/-- A file decode oracle that only decodes under `gbk`. -/
def decGbkOnly : String → Option String :=
  fun e => if e = "gbk" then some "hi" else none

/-- Empty clipboard text with two referenced Markdown files, the second of
which fails every encoding. -/
def envTwoFiles : Env :=
  { envReadFail with
    mdFiles := [("a.md", fun e => if e = "utf-8" then some "A" else none),
                ("b.md", fun _ => none)] }

/-! ## Theorems

### Run lemmas for the workflow monad -/

theorem bind_run {α β : Type} (x : M α) (f : α → M β) (ns : Notifs) :
    (x >>= f) ns =
      match x ns with
      | (ns1, Except.ok a) => f a ns1
      | (ns1, Except.error e) => (ns1, Except.error e) := rfl

theorem pure_run {α : Type} (a : α) (ns : Notifs) :
    (pure a : M α) ns = (ns, Except.ok a) := rfl

theorem emit_run (n : Notif) (ns : Notifs) :
    emit n ns = (ns ++ [n], Except.ok ()) := rfl

theorem liftE_run {α : Type} (x : Except PyErr α) (ns : Notifs) :
    liftE x ns = (ns, x) := rfl

theorem liftClip_run {α : Type} (x : Option α) (ns : Notifs) :
    liftClip x ns =
      (ns, match x with
           | some a => Except.ok a
           | none => Except.error PyErr.clipboard) := rfl

theorem raiseErr_run {α : Type} (e : PyErr) (ns : Notifs) :
    (raiseErr e : M α) ns = (ns, Except.error e) := rfl

theorem tryCatchM_run {α : Type} (body : M α) (handler : PyErr → M α) (ns : Notifs) :
    tryCatchM body handler ns =
      match body ns with
      | (ns1, Except.error e) => handler e ns1
      | (ns1, Except.ok a) => (ns1, Except.ok a) := rfl

/-- `execute` is the boundary wrapper around `executeBody`: a normally
terminating body is passed through, an exception becomes exactly one
appended failure notification, and no exception escapes. -/
theorem execute_eq (env : Env) (cfg : Config) :
    execute env cfg =
      ((match executeBody env cfg [] with
        | (ns, Except.ok _) => ns
        | (ns, Except.error e) => ns ++ [failNotifFor e]), Except.ok ()) := by
  unfold execute
  rw [tryCatchM_run]
  rcases h : executeBody env cfg [] with ⟨ns, r⟩
  cases r with
  | ok a => rfl
  | error e => rfl

/-! ### C1 — rich text with a spreadsheet target -/

/-- C1 counterexample: with a rich-text clipboard that is not a Markdown
lookalike (`should_use_html` true), the target resolved to Excel and
`enable_excel` left at its default `true`, the router runs the spreadsheet
table-insert flow (its "invalid table" outcome is the one delivered) instead
of falling through to the no-target policy flow, refuting the claim. -/
theorem richtext_excel_counterexample :
    execute envRichExcel {}
      = ([⟨"workflow.table.invalid_with_app", false, none, none⟩], Except.ok ())
    ∧ (classifyHtml envRichExcel).1 = true
    ∧ routeOfText (classifyHtml envRichExcel).1 Target.excel true = Flow.excelTable
    ∧ Flow.excelTable ≠ Flow.noApp true :=
  ⟨rfl, rfl, rfl, by decide⟩

/-- C1 (amended): when the clipboard holds a rich-text fragment that is not
judged a Markdown lookalike and the target is Excel or WPS spreadsheet, the
router runs the spreadsheet table-insert flow on the Markdown-equivalent
clipboard text whenever `enable_excel` is true; only when `enable_excel` is
false does it fall through to the no-target policy flow (HTML variant). -/
theorem richtext_excel_routing (t : Target)
    (h : t = Target.excel ∨ t = Target.wpsExcel) :
    routeOfText true t true = Flow.excelTable
    ∧ routeOfText true t false = Flow.noApp true := by
  rcases h with h | h <;> subst h <;> exact ⟨rfl, rfl⟩

/-- C1 witness: the amended routing fact at the concrete target `excel`. -/
theorem richtext_excel_routing_witness :
    routeOfText true Target.excel true = Flow.excelTable
    ∧ routeOfText true Target.excel false = Flow.noApp true :=
  richtext_excel_routing Target.excel (Or.inl rfl)

/-! ### C4 — boundary exception policy of `execute` -/

/-- C4: for every invocation environment and configuration, `execute` never
lets an exception escape to the hotkey layer: it terminates normally, a
normally-terminating body is passed through unchanged, and a body that
raises any collaborator exception yields the body's notifications plus
exactly one failure outcome (the boundary handler's, always `ok = false`)
delivered through the notification sink. -/
theorem execute_catches_all_exceptions (env : Env) (cfg : Config) :
    (execute env cfg).2 = Except.ok ()
    ∧ execute env cfg =
        ((match executeBody env cfg [] with
          | (ns, Except.ok _) => ns
          | (ns, Except.error e) => ns ++ [failNotifFor e]), Except.ok ())
    ∧ ∀ e : PyErr, (failNotifFor e).ok = false := by
  refine ⟨?_, execute_eq env cfg, ?_⟩
  · rw [execute_eq]
  · intro e
    cases e <;> rfl

/-! ### C7 — the batch aggregate outcome of the multi-file no-target flow -/

/-- C7 evaluation at the failing input: two Markdown files processed under
the `open` policy with the document converter failing on both files — each
file gets its own failure outcome, yet the flow still emits the aggregate
"N succeeded" outcome with `N = 2`, because `success_count` counts every
file whose per-file call returned (the generate helpers swallow their own
failures) rather than the files that succeeded. -/
theorem batch_aggregate_despite_all_failures :
    handleMdFilesNoAppFlow envPandocFail {} [("a.md", "x"), ("b.md", "y")] []
      = ([⟨"workflow.markdown.convert_failed", false, none, none⟩,
          ⟨"workflow.markdown.convert_failed", false, none, none⟩,
          ⟨"workflow.md_file.batch_success", true, some 2, none⟩], Except.ok ())
    ∧ envPandocFail.pandocMd "x" = Except.error PyErr.pandoc
    ∧ envPandocFail.pandocMd "y" = Except.error PyErr.pandoc :=
  ⟨rfl, rfl, rfl⟩

/-! ### C8 — persistence failure after a successful insertion -/

/-- C8 counterexample: in the HTML→document flow with `keep_file` set, a
persistence failure after a successful insertion produces no warning
outcome at all — the flow's only notification is the insertion success —
refuting the claim that both document-producing flows report the
persistence failure as a secondary warning outcome. -/
theorem html_persistence_failure_unreported :
    handleHtmlToWordFlow envHtmlSaveFail { keepFile := true } Target.word (some "<p>x</p>") []
      = ([⟨"workflow.html.insert_success", true, none, none⟩], Except.ok ())
    ∧ envHtmlSaveFail.saveFileHtml = Except.error PyErr.generic
    ∧ envHtmlSaveFail.wordInsert = Except.ok true :=
  ⟨rfl, rfl, rfl⟩

/-- C8 (amended): a persistence failure after a successful insertion never
downgrades the flow outcome — the insertion success outcome is still
delivered in both document-producing flows; the Markdown→document flow
additionally reports the persistence failure as a secondary warning
outcome, while the HTML→document flow only logs it (no warning outcome). -/
theorem persistence_failure_flows (env : Env) (cfg : Config) (md ht : String)
    (bmd bht : Bytes) (e1 e2 : PyErr) (ns : Notifs)
    (hk : cfg.keepFile = true)
    (hp : env.pandocOk = true)
    (hlc : (env.latexConv (env.mdNormalize md)).data.count '\n' + 1 < 100)
    (hmd : env.pandocMd (env.latexConv (env.mdNormalize md)) = Except.ok bmd)
    (hins : env.wordInsert = Except.ok true)
    (hsw : env.saveFileWord = Except.error e1)
    (hht : env.pandocHtml ht = Except.ok bht)
    (hsh : env.saveFileHtml = Except.error e2) :
    handleWordFlow env cfg md Target.word false 1 ns
      = (ns ++ [⟨"workflow.document.save_failed", false, none, none⟩,
                ⟨"workflow.word.insert_success", true, none, none⟩], Except.ok ())
    ∧ handleHtmlToWordFlow env cfg Target.word (some ht) ns
      = (ns ++ [⟨"workflow.html.insert_success", true, none, none⟩], Except.ok ()) := by
  constructor
  · unfold handleWordFlow
    have hno : ¬ ((env.latexConv (env.mdNormalize md)).data.count '\n' + 1 ≥ 100) := by omega
    simp [hno, ensurePandoc, hp, hmd, hk, hsw, hins, performWordInsertion, showWordResult,
          bind_run, liftE_run, pure_run, emit_run, tryCatchM_run]
  · unfold handleHtmlToWordFlow
    simp [ensurePandoc, hp, hht, hk, hsh, hins, performWordInsertion,
          bind_run, liftE_run, pure_run, emit_run, tryCatchM_run]

/-- C8 witness: the amended statement at a concrete environment where both
flows convert and insert successfully and both persistence attempts fail. -/
theorem persistence_failure_flows_witness :
    handleWordFlow envSaveBothFail { keepFile := true } "md" Target.word false 1 []
      = ([⟨"workflow.document.save_failed", false, none, none⟩,
          ⟨"workflow.word.insert_success", true, none, none⟩], Except.ok ())
    ∧ handleHtmlToWordFlow envSaveBothFail { keepFile := true } Target.word (some "<p>x</p>") []
      = ([⟨"workflow.html.insert_success", true, none, none⟩], Except.ok ()) :=
  persistence_failure_flows envSaveBothFail { keepFile := true } "md" "<p>x</p>"
    [0] [0] PyErr.generic PyErr.generic [] rfl rfl (by decide) rfl rfl rfl rfl rfl

/-! ### C9 — surfacing of clipboard read failures -/

/-- C9 counterexample: when the clipboard text read fails already during the
emptiness check (and no Markdown files are present), the invocation surfaces
the "clipboard empty" outcome, not the "clipboard read failed" outcome,
refuting the claim that every clipboard read failure surfaces as
"clipboard read failed". -/
theorem read_failure_surfaced_as_empty :
    envReadFail.textRead1 = none
    ∧ execute envReadFail {}
        = ([⟨"workflow.clipboard.empty", false, none, none⟩], Except.ok ())
    ∧ (⟨"workflow.clipboard.empty", false, none, none⟩ : Notif)
        ≠ failNotifFor PyErr.clipboard :=
  ⟨rfl, rfl, by decide⟩

/-- C9 (amended): whenever the main-flow clipboard text read (the one after
the emptiness check found non-blank text) fails with a clipboard access
error, the invocation surfaces exactly the "clipboard read failed" outcome;
a read failure during the emptiness check itself is instead treated as an
empty clipboard. -/
theorem mainflow_read_failure_surfaced (env : Env) (cfg : Config) (tgt : Target)
    (h1 : isClipboardEmpty env = false)
    (h2 : env.detect = Except.ok tgt)
    (h3 : ((classifyHtml env).1 && isWordTarget tgt) = false)
    (h4 : env.textRead2 = none) :
    execute env cfg = ([failNotifFor PyErr.clipboard], Except.ok ())
    ∧ failNotifFor PyErr.clipboard
        = ⟨"workflow.clipboard.read_failed", false, none, none⟩ := by
  refine ⟨?_, rfl⟩
  rw [execute_eq]
  have hb : executeBody env cfg [] = ([], Except.error PyErr.clipboard) := by
    unfold executeBody
    rcases hc : classifyHtml env with ⟨suh, ht⟩
    rw [hc] at h3
    have h3n : ¬(suh = true ∧ isWordTarget tgt = true) := by
      rintro ⟨ha, hbb⟩
      rw [ha, hbb] at h3
      exact absurd h3 (by simp)
    simp [h1, h2, h3n, h4, hc, bind_run, liftE_run, liftClip_run, pure_run]
  rw [hb]
  rfl

/-- C9 witness: the amended statement at a concrete environment whose
second clipboard text read fails. -/
theorem mainflow_read_failure_surfaced_witness :
    execute envSecondReadFail {} = ([failNotifFor PyErr.clipboard], Except.ok ())
    ∧ failNotifFor PyErr.clipboard
        = ⟨"workflow.clipboard.read_failed", false, none, none⟩ :=
  mainflow_read_failure_surfaced envSecondReadFail {} Target.noneT rfl rfl rfl rfl

/-! ### C5 — ordered decoding attempts and batch tolerance -/

theorem tryEncodings_cons (dec : String → Option String) (e : String) (rest : List String) :
    tryEncodings dec (e :: rest) =
      match dec e with
      | some c => some c
      | none => tryEncodings dec rest := rfl

theorem tryEncodings_append (dec : String → Option String) (pre rest : List String)
    (h : ∀ x ∈ pre, dec x = none) :
    tryEncodings dec (pre ++ rest) = tryEncodings dec rest := by
  induction pre with
  | nil => rfl
  | cons a t ih =>
    simp only [List.cons_append, tryEncodings_cons, h a (List.mem_cons_self a t)]
    exact ih fun x hx => h x (List.mem_cons_of_mem a hx)

theorem tryEncodings_all_none (dec : String → Option String) (l : List String)
    (h : ∀ x ∈ l, dec x = none) : tryEncodings dec l = none := by
  induction l with
  | nil => rfl
  | cons a t ih =>
    simp only [tryEncodings_cons, h a (List.mem_cons_self a t)]
    exact ih fun x hx => h x (List.mem_cons_of_mem a hx)

theorem readFilesLoop_run (files : List (String × (String → Option String))) (ns : Notifs) :
    readFilesLoop files ns =
      (ns ++ files.flatMap (fun fd =>
          match readFileWithEncoding fd.2 with
          | some _ => []
          | none => [⟨"workflow.md_file.read_failed", false, none, some fd.1⟩]),
       Except.ok (files.filterMap
          (fun fd => (readFileWithEncoding fd.2).map (fun c => (fd.1, c))))) := by
  induction files generalizing ns with
  | nil => simp [readFilesLoop, pure_run]
  | cons fd rest ih =>
    rcases fd with ⟨fn, dec⟩
    rcases h : readFileWithEncoding dec with _ | c
    · simp only [readFilesLoop, h, bind_run, emit_run, List.flatMap_cons,
        List.filterMap_cons]
      rw [ih]
      simp [h]
    · simp only [readFilesLoop, h, bind_run, pure_run, List.flatMap_cons,
        List.filterMap_cons]
      rw [ih]
      simp [h]

/-- C5: each referenced Markdown file is read by attempting the decodings
`utf-8`, `gbk`, `gb2312`, `utf-8-sig` in that fixed order, returning the
content of the first encoding that decodes successfully (and failing when
every encoding fails); in the batch reader a file that fails every encoding
is skipped and individually reported (with its filename) while every other
file of the batch is still processed in order. -/
theorem read_file_encoding_order :
    (∀ (dec : String → Option String) (pre post : List String) (e c : String),
       encodingOrder = pre ++ e :: post →
       (∀ x ∈ pre, dec x = none) →
       dec e = some c →
       readFileWithEncoding dec = some c)
    ∧ (∀ dec : String → Option String,
       (∀ x ∈ encodingOrder, dec x = none) → readFileWithEncoding dec = none)
    ∧ (∀ (env : Env) (ns : Notifs),
       tryReadClipboardMdFiles env ns =
         if env.mdFiles.isEmpty then (ns, Except.ok (false, []))
         else
           (ns ++ (if env.mdFiles.length > 1 then
                     [⟨"workflow.md_file.multiple_found", true, some env.mdFiles.length, none⟩]
                   else [])
               ++ env.mdFiles.flatMap (fun fd =>
                   match readFileWithEncoding fd.2 with
                   | some _ => []
                   | none => [⟨"workflow.md_file.read_failed", false, none, some fd.1⟩]),
            Except.ok
              (decide (0 < (env.mdFiles.filterMap
                 (fun fd => (readFileWithEncoding fd.2).map (fun c => (fd.1, c)))).length),
               env.mdFiles.filterMap
                 (fun fd => (readFileWithEncoding fd.2).map (fun c => (fd.1, c)))))) := by
  refine ⟨?_, ?_, ?_⟩
  · intro dec pre post e c horder hpre he
    unfold readFileWithEncoding
    rw [horder, tryEncodings_append dec pre (e :: post) hpre]
    unfold tryEncodings
    rw [he]
  · intro dec h
    exact tryEncodings_all_none dec encodingOrder h
  · intro env ns
    unfold tryReadClipboardMdFiles
    by_cases hempty : env.mdFiles.isEmpty
    · simp [hempty, pure_run]
    · rw [if_neg hempty, if_neg hempty]
      by_cases hmulti : env.mdFiles.length > 1
      · rw [if_pos hmulti, if_pos hmulti]
        simp only [bind_run, emit_run, readFilesLoop_run, pure_run]
      · rw [if_neg hmulti, if_neg hmulti]
        simp only [bind_run, pure_run, readFilesLoop_run]
        simp

/-- C5 witness: the first-success rule at a decoder succeeding only for
`gbk`, and the batch characterization at two files of which the second fails
every encoding. -/
theorem read_file_encoding_order_witness :
    readFileWithEncoding decGbkOnly = some "hi"
    ∧ tryReadClipboardMdFiles envTwoFiles [] =
        ([⟨"workflow.md_file.multiple_found", true, some 2, none⟩,
          ⟨"workflow.md_file.read_failed", false, none, some "b.md"⟩],
         Except.ok (true, [("a.md", "A")])) := by
  constructor
  · exact read_file_encoding_order.1 decGbkOnly ["utf-8"] ["gb2312", "utf-8-sig"] "gbk" "hi"
      rfl (by decide) rfl
  · rw [read_file_encoding_order.2.2 envTwoFiles []]
    rfl

/-! ### C2 and C3 — the fragment extractor -/

theorem pySliceIdx_coe (n a : Nat) (h : a ≤ n) : pySliceIdx n (a : Int) = a := by
  unfold pySliceIdx
  rw [if_neg (by omega)]
  simp only [Int.toNat_ofNat]
  exact Nat.min_eq_left h

theorem pySliceStr_coe (s : String) (a b : Nat) (ha : a ≤ s.length) (hb : b ≤ s.length) :
    pySliceStr s (a : Int) (b : Int) = ⟨(s.data.take b).drop a⟩ := by
  unfold pySliceStr pySliceL
  rw [show s.data.length = s.length from rfl, pySliceIdx_coe s.length a ha,
      pySliceIdx_coe s.length b hb]

theorem pySliceStr_full (s : String) : pySliceStr s 0 (s.length : Int) = s := by
  rw [show (0 : Int) = ((0 : Nat) : Int) from rfl,
      pySliceStr_coe s 0 s.length (Nat.zero_le _) (Nat.le_refl _)]
  rw [List.drop_zero, show s.data.take s.length = s.data.take s.data.length from rfl,
      List.take_length]

/-- C2: for every container whose header declares `StartFragment` and
`EndFragment` as (truthy) non-negative integer digit runs whose values are
in range, the fragment extractor returns, without raising, exactly the slice
of the container between those two offsets. -/
theorem extract_declared_offsets (cf : String) (sf ef : List Char)
    (hsf : metaGet (parseMeta cf) "StartFragment".data = some sf)
    (hef : metaGet (parseMeta cf) "EndFragment".data = some ef)
    (hdsf : pyIsDigitL sf = true)
    (hdef : pyIsDigitL ef = true)
    (ha : digitsToNat sf ≤ cf.length)
    (hb : digitsToNat ef ≤ cf.length) :
    extractHtmlFragment cf
      = Except.ok ⟨(cf.data.take (digitsToNat ef)).drop (digitsToNat sf)⟩ := by
  have h1 : step1Result cf
      = some (pySliceStr cf (digitsToNat sf) (digitsToNat ef)) := by
    unfold step1Result
    rw [hsf, hef]
    simp [hdsf, hdef]
  unfold extractHtmlFragment
  rw [h1, pySliceStr_coe cf (digitsToNat sf) (digitsToNat ef) ha hb]

/-- C2 witness: the declared-offsets rule at a concrete container whose
offsets 35..40 select `hello`. -/
theorem extract_declared_offsets_witness :
    metaGet (parseMeta cfFragW) "StartFragment".data = some "35".data
    ∧ metaGet (parseMeta cfFragW) "EndFragment".data = some "40".data
    ∧ digitsToNat "35".data ≤ cfFragW.length
    ∧ digitsToNat "40".data ≤ cfFragW.length
    ∧ extractHtmlFragment cfFragW = Except.ok "hello" := by
  refine ⟨rfl, rfl, by decide, by decide, ?_⟩
  have h := extract_declared_offsets cfFragW "35".data "40".data rfl rfl rfl rfl
    (by decide) (by decide)
  exact h.trans rfl

/-- C3 counterexample: a structurally-present container with no usable
offsets and no anchor comments whose declared `StartHTML` value is not an
integer literal makes the extractor raise (`int("x")` raises `ValueError`
outside any `try`), refuting the claim that the extractor never raises and
always returns the declared span for such inputs. -/
theorem extract_fullspan_counterexample :
    step1Result "StartHTML:x\nabc" = none
    ∧ anchorExtract "StartHTML:x\nabc".data = none
    ∧ extractHtmlFragment "StartHTML:x\nabc"
        = Except.error "ValueError: invalid literal for int()" :=
  ⟨rfl, rfl, rfl⟩

/-- C3 (amended): for every structurally-present container with neither
usable `StartFragment`/`EndFragment` offsets nor both anchor comments, the
extractor behaves as follows: if the declared `StartHTML`/`EndHTML` values
(defaulting to `0` and the container length when absent) parse as integers,
it returns, without raising, the span they denote — in particular the whole
container, non-empty for non-empty input, when both keys are absent (the
declared span may however be empty); if a declared value does not parse as
an integer the extractor raises. -/
theorem extract_fullspan_amended (cf : String)
    (h1 : step1Result cf = none)
    (h2 : anchorExtract cf.data = none) :
    (∀ a b : Int, startHtmlInt cf = some a → endHtmlInt cf = some b →
       extractHtmlFragment cf = Except.ok (pySliceStr cf a b))
    ∧ (metaGet (parseMeta cf) "StartHTML".data = none →
       metaGet (parseMeta cf) "EndHTML".data = none →
       extractHtmlFragment cf = Except.ok cf)
    ∧ ((startHtmlInt cf = none ∨ endHtmlInt cf = none) →
       ∀ s : String, extractHtmlFragment cf ≠ Except.ok s) := by
  refine ⟨?_, ?_, ?_⟩
  · intro a b hA hB
    unfold extractHtmlFragment
    rw [h1, h2, hA, hB]
  · intro hS hE
    have hA : startHtmlInt cf = some 0 := by unfold startHtmlInt; rw [hS]
    have hB : endHtmlInt cf = some (cf.length : Int) := by unfold endHtmlInt; rw [hE]
    unfold extractHtmlFragment
    rw [h1, h2, hA, hB]
    show Except.ok (pySliceStr cf 0 (cf.length : Int)) = Except.ok cf
    rw [pySliceStr_full]
  · intro hor s
    unfold extractHtmlFragment
    rw [h1, h2]
    rcases hor with h | h
    · rw [h]
      cases endHtmlInt cf <;> simp
    · rw [h]
      cases startHtmlInt cf <;> simp

/-- C3 witness: the amended statement at the concrete container `abc`,
which has no metadata at all — the extractor returns the whole container. -/
theorem extract_fullspan_amended_witness :
    step1Result "abc" = none
    ∧ anchorExtract "abc".data = none
    ∧ metaGet (parseMeta "abc") "StartHTML".data = none
    ∧ extractHtmlFragment "abc" = Except.ok "abc" := by
  refine ⟨rfl, rfl, rfl, ?_⟩
  exact (extract_fullspan_amended "abc" rfl rfl).2.1 rfl rfl

/-! ### C6 and C10 — the multi-file merge -/

theorem splitNL_cons_eq (c : Char) (t : List Char) :
    splitNL (c :: t) =
      if c = '\n' then [] :: splitNL t
      else
        match splitNL t with
        | [] => [[c]]
        | h :: tl => (c :: h) :: tl := rfl

theorem splitNL_ne_nil (l : List Char) : splitNL l ≠ [] := by
  cases l with
  | nil => simp [splitNL]
  | cons c t =>
    rw [splitNL_cons_eq]
    by_cases h : c = '\n'
    · simp [h]
    · rw [if_neg h]
      rcases splitNL t with _ | ⟨hd, tl⟩ <;> simp

theorem splitNL_append_newline (a b : List Char) :
    splitNL (a ++ '\n' :: b) = splitNL a ++ splitNL b := by
  induction a with
  | nil =>
    rw [List.nil_append, splitNL_cons_eq, if_pos rfl]
    rfl
  | cons c t ih =>
    rw [List.cons_append, splitNL_cons_eq, ih, splitNL_cons_eq c t]
    by_cases h : c = '\n'
    · simp [h]
    · rw [if_neg h, if_neg h]
      rcases hs : splitNL t with _ | ⟨hd, tl⟩
      · exact absurd hs (splitNL_ne_nil t)
      · simp

theorem splitNL_no_newline (a : List Char) (h : '\n' ∉ a) : splitNL a = [a] := by
  induction a with
  | nil => rfl
  | cons c t ih =>
    rw [splitNL_cons_eq]
    have hc : c ≠ '\n' := fun hh => h (hh ▸ List.mem_cons_self c t)
    rw [if_neg hc, ih fun hm => h (List.mem_cons_of_mem c hm)]

theorem string_data_append (s t : String) : (s ++ t).data = s.data ++ t.data := rfl

theorem pyLines_join (parts : List String) (h : parts ≠ []) :
    pyLines (pyJoinNL parts) = parts.flatMap pyLines := by
  induction parts with
  | nil => exact absurd rfl h
  | cons p ps ih =>
    cases ps with
    | nil => simp [pyJoinNL]
    | cons q qs =>
      show pyLines (p ++ "\n" ++ pyJoinNL (q :: qs)) = _
      unfold pyLines
      have hdata : (p ++ "\n" ++ pyJoinNL (q :: qs)).data
          = p.data ++ '\n' :: (pyJoinNL (q :: qs)).data := by
        rw [string_data_append, string_data_append]
        rw [List.append_assoc]
        rfl
      rw [hdata, splitNL_append_newline, List.map_append]
      have ihq := ih (by simp)
      unfold pyLines at ihq
      rw [ihq]
      rw [List.flatMap_cons]
      rfl

theorem marker_no_newline (fn : String) (h : '\n' ∉ fn.data) :
    '\n' ∉ (sourceMarker fn).data := by
  unfold sourceMarker
  rw [string_data_append, string_data_append]
  intro hm
  rcases List.mem_append.mp hm with hm1 | hm2
  · rcases List.mem_append.mp hm1 with hm3 | hm4
    · exact absurd hm3 (by decide)
    · exact h hm4
  · exact absurd hm2 (by decide)

theorem isMarkerLine_sourceMarker (fn : String) :
    isMarkerLine (sourceMarker fn) = true := by
  unfold isMarkerLine sourceMarker
  rw [string_data_append, string_data_append]
  rw [List.isPrefixOf_iff_prefix]
  rw [List.append_assoc]
  exact List.prefix_append _ _

theorem pyLines_marker (fn : String) (h : '\n' ∉ fn.data) :
    pyLines (sourceMarker fn) = [sourceMarker fn] := by
  unfold pyLines
  rw [splitNL_no_newline _ (marker_no_newline fn h)]
  rfl

theorem flatMap_merge_lines (fd : List (String × String))
    (hfn : ∀ fc ∈ fd, '\n' ∉ fc.1.data) :
    (fd.flatMap fun fc => [sourceMarker fc.1, pyStrip fc.2, ""]).flatMap pyLines
      = fd.flatMap fun fc => sourceMarker fc.1 :: (pyLines (pyStrip fc.2) ++ [""]) := by
  induction fd with
  | nil => rfl
  | cons fc rest ih =>
    rw [List.flatMap_cons, List.flatMap_append, List.flatMap_cons,
        ih fun x hx => hfn x (List.mem_cons_of_mem fc hx)]
    rw [List.flatMap_cons, List.flatMap_cons, List.flatMap_cons, List.flatMap_nil]
    rw [pyLines_marker fc.1 (hfn fc (List.mem_cons_self fc rest))]
    simp [pyLines, splitNL]

theorem merge_lines_eq (fd : List (String × String))
    (hlen : fd.length ≠ 1) (hfd : fd ≠ [])
    (hfn : ∀ fc ∈ fd, '\n' ∉ fc.1.data) :
    pyLines (mergeMarkdownContents fd)
      = fd.flatMap fun fc => sourceMarker fc.1 :: (pyLines (pyStrip fc.2) ++ [""]) := by
  unfold mergeMarkdownContents
  rw [if_neg hlen]
  have hparts : (fd.flatMap fun fc => [sourceMarker fc.1, pyStrip fc.2, ""]) ≠ [] := by
    rcases fd with _ | ⟨f, rest⟩
    · exact absurd rfl hfd
    · simp
  rw [pyLines_join _ hparts]
  exact flatMap_merge_lines fd hfn

theorem filter_merge_lines (fd : List (String × String))
    (hc : ∀ fc ∈ fd, ∀ l ∈ pyLines (pyStrip fc.2), isMarkerLine l = false) :
    (fd.flatMap fun fc => sourceMarker fc.1 :: (pyLines (pyStrip fc.2) ++ [""])).filter
        isMarkerLine
      = fd.map fun fc => sourceMarker fc.1 := by
  induction fd with
  | nil => rfl
  | cons fc rest ih =>
    rw [List.flatMap_cons, List.filter_append, List.map_cons,
        ih fun x hx => hc x (List.mem_cons_of_mem fc hx)]
    have hcons : (sourceMarker fc.1 :: (pyLines (pyStrip fc.2) ++ [""])).filter isMarkerLine
        = [sourceMarker fc.1] := by
      rw [List.filter_cons_of_pos (isMarkerLine_sourceMarker fc.1)]
      rw [List.filter_append]
      rw [List.filter_eq_nil_iff.mpr fun l hl =>
        by simp [hc fc (List.mem_cons_self fc rest) l hl]]
      rfl
    rw [hcons]
    rfl

/-- C6: merging a single-entry FileSet returns that entry's content
unchanged (no provenance marker added); merging `N > 1` entries whose
filenames contain no newline and whose stripped contents contain no
marker-shaped line produces output whose marker lines are exactly the `N`
provenance markers, one per originating file, in the entries' (upstream
filename-sorted) order, each entry's block followed by a blank separator
line. -/
theorem merge_provenance_markers (fd : List (String × String))
    (hlen : 1 < fd.length)
    (hfn : ∀ fc ∈ fd, '\n' ∉ fc.1.data)
    (hc : ∀ fc ∈ fd, ∀ l ∈ pyLines (pyStrip fc.2), isMarkerLine l = false) :
    (pyLines (mergeMarkdownContents fd)).filter isMarkerLine
      = fd.map (fun fc => sourceMarker fc.1)
    ∧ pyLines (mergeMarkdownContents fd)
      = fd.flatMap (fun fc => sourceMarker fc.1 :: (pyLines (pyStrip fc.2) ++ [""]))
    ∧ ∀ fn c, mergeMarkdownContents [(fn, c)] = c := by
  have hfd : fd ≠ [] := by
    intro h
    rw [h] at hlen
    exact absurd hlen (by simp)
  have hlines := merge_lines_eq fd (by omega) hfd hfn
  refine ⟨?_, hlines, fun fn c => rfl⟩
  rw [hlines]
  exact filter_merge_lines fd hc

/-- C6 witness: merging two concrete files yields exactly their two
provenance markers, in order. -/
theorem merge_provenance_markers_witness :
    (pyLines (mergeMarkdownContents [("a.md", "A"), ("b.md", " B ")])).filter isMarkerLine
      = ["<!-- Source: a.md -->", "<!-- Source: b.md -->"] := by
  have h := (merge_provenance_markers [("a.md", "A"), ("b.md", " B ")]
    (by decide) (by decide) (by decide)).1
  rw [h]
  rfl

theorem pyStripL_eq_rdrop (l : List Char) :
    pyStripL l = List.rdropWhile isPyWS (l.dropWhile isPyWS) := rfl

theorem pyStripL_idem (l : List Char) : pyStripL (pyStripL l) = pyStripL l := by
  rw [pyStripL_eq_rdrop, pyStripL_eq_rdrop]
  have h1 : List.dropWhile isPyWS (List.rdropWhile isPyWS (l.dropWhile isPyWS))
      = List.rdropWhile isPyWS (l.dropWhile isPyWS) := by
    rcases hr : List.rdropWhile isPyWS (l.dropWhile isPyWS) with _ | ⟨x, xs⟩
    · rfl
    · obtain ⟨t, ht⟩ := List.rdropWhile_prefix isPyWS (l.dropWhile isPyWS)
      rw [hr] at ht
      have hne : l.dropWhile isPyWS ≠ [] := by
        rw [← ht]
        simp
      have hh := List.head_dropWhile_not isPyWS l hne
      have hxh : (l.dropWhile isPyWS).head hne = x := by
        have hcons : l.dropWhile isPyWS = x :: (xs ++ t) := by
          rw [← ht]
          rfl
        simp [hcons]
      rw [hxh] at hh
      exact List.dropWhile_cons_of_neg (by simp [hh])
  rw [h1, List.rdropWhile_idempotent]

theorem pyStrip_idem (s : String) : pyStrip (pyStrip s) = pyStrip s :=
  congrArg String.mk (pyStripL_idem s.data)

/-- C10: when merging more than one file, each entry's content is
whitespace-stripped before being placed under its provenance marker —
merging is invariant under pre-stripping every content, a single-entry set
passes its content through byte-identically, and a concrete two-file merge
shows a whitespace-padded entry is not preserved verbatim. -/
theorem merge_strips_contents :
    (∀ fd : List (String × String), 2 ≤ fd.length →
       mergeMarkdownContents fd
         = mergeMarkdownContents (fd.map fun fc => (fc.1, pyStrip fc.2)))
    ∧ (∀ fn c, mergeMarkdownContents [(fn, c)] = c)
    ∧ mergeMarkdownContents [("a.md", " x "), ("b.md", "y")]
        = "<!-- Source: a.md -->\nx\n\n<!-- Source: b.md -->\ny\n" := by
  refine ⟨?_, fun fn c => rfl, rfl⟩
  intro fd hlen
  unfold mergeMarkdownContents
  rw [if_neg (by omega), if_neg (by rw [List.length_map]; omega)]
  rw [List.flatMap_map]
  simp [Function.comp, pyStrip_idem]

/-- C10 witness: the strip-invariance at a concrete two-file set with
whitespace-padded content. -/
theorem merge_strips_contents_witness :
    mergeMarkdownContents [("a.md", " x "), ("b.md", "y")]
      = mergeMarkdownContents [("a.md", pyStrip " x "), ("b.md", pyStrip "y")] := by
  have h := merge_strips_contents.1 [("a.md", " x "), ("b.md", "y")] (by decide)
  exact h.trans rfl

end PasteMD
